import Mathlib

/-!
Verification of the step functions in `src/steps/os/unix.rs` of topgrade
against its natural-language specification.

The execution core (Run Mode, Executor, Requirement Resolver, Execution
Context) lives outside the provided source tree; it is modelled from the
spec where noted.  Every step function below is a direct translation of
the corresponding Rust function in `src/steps/os/unix.rs`.

The embedding is a writer-style semantics: a step evaluates over a frozen
environment snapshot (`Env`) to an outcome together with the list of
externally observable events (process spawns, command previews, terminal
output) it produced, in order.
-/

set_option maxRecDepth 4096

namespace Topgrade

/-- Outcome of one external process, as recorded in the environment
snapshot: normal exit (with optional exit code — `none` models death by
signal — and captured stdout), a spawn failure, or a wait failure. -/
inductive ProcOutcome where
  | exited (code : Option Int) (output : String)
  | spawnFailed
  | waitFailed
deriving DecidableEq, Repr

/-- A frozen snapshot of everything the steps consult: binaries resolvable
on the executable search path, existing filesystem paths, environment
variables, parsed INI files (general section key/value pairs), the
behaviour of each external process, and file owner uids. -/
structure Env where
  binPath : List (String × String)
  filesExist : List String
  envVars : List (String × String)
  iniFiles : List (String × List (String × String))
  procs : List ((String × List String) × ProcOutcome)
  fileUid : List (String × Nat)
deriving DecidableEq, Repr

/-- Result of the process behaviour oracle; a command absent from the
snapshot's table is taken to exit successfully with empty output. -/
def procResult (env : Env) (prog : String) (args : List String) : ProcOutcome :=
  (env.procs.lookup (prog, args)).getD (.exited (some 0) "")

/-- Environment-variable lookup (`std::env::var`). -/
def envVar (env : Env) (name : String) : Option String :=
  env.envVars.lookup name

/-- Externally observable events, in order of occurrence:  `spawn` is a
real process creation, `preview` is the dry-run line sent to the
reporting sink, `separator` is the step-title announcement, `print` is
direct terminal output. -/
inductive Event where
  | spawn (prog : String) (args : List String)
  | preview (prog : String) (args : List String)
  | separator (title : String)
  | print (msg : String)
deriving DecidableEq, Repr

/-- The Step Error Taxonomy: skip, external process failure, spawn
failure, and any other propagated error. -/
inductive StepError where
  | Skip (reason : String)
  | ProcessFailed (code : Option Int)
  | SpawnFailed
  | Fatal (msg : String)
deriving DecidableEq, Repr

/-- Control outcome of a step body: normal value, propagated step error,
or a Rust panic (`unwrap` on `None`/`Err`). -/
inductive Outcome (α : Type) where
  | ok (a : α)
  | error (e : StepError)
  | panic (msg : String)
deriving DecidableEq, Repr

/-- A step computation result: outcome plus the ordered event trace. -/
def StepRes (α : Type) : Type := Outcome α × List Event

instance {α : Type} [DecidableEq α] : DecidableEq (StepRes α) := by
  unfold StepRes; infer_instance

def stepOk {α : Type} (a : α) : StepRes α := (.ok a, [])

def stepErr {α : Type} (e : StepError) : StepRes α := (.error e, [])

def stepEmit (e : Event) : StepRes Unit := (.ok (), [e])

/-- Sequencing: `?`-style propagation of errors and panics, with event
traces concatenated in order. -/
def stepBind {α β : Type} (r : StepRes α) (f : α → StepRes β) : StepRes β :=
  match r.1 with
  | .ok a => ((f a).1, r.2 ++ (f a).2)
  | .error e => (.error e, r.2)
  | .panic m => (.panic m, r.2)

/-- Prepend already-produced events onto a computation's trace. -/
def prependEvents {α : Type} (es : List Event) (r : StepRes α) : StepRes α :=
  (r.1, es ++ r.2)

/-- A command description: resolved program plus ordered arguments. -/
structure Cmd where
  program : String
  args : List String
deriving DecidableEq, Repr

def Cmd.addArgs (c : Cmd) (more : List String) : Cmd :=
  ⟨c.program, c.args ++ more⟩

/-- The two-valued Run Mode: `Wet` executes, `Dry` simulates. -/
inductive RunType where
  | Wet
  | Dry
deriving DecidableEq, Repr

/-- Per-run configuration flags consulted by the steps below. -/
structure Config where
  cleanup : Bool
  brew_autoremove : Bool
  brew_cask_greedy : Bool
  yes_pkgin : Bool
deriving DecidableEq, Repr

/-- Modelled from the spec: the Execution Context carries the resolved
Run Mode, the optional elevation command and the parsed configuration;
it is shared read-only by every step (`execution_context.rs` is not
under `src/`). -/
structure ExecutionContext where
  run_type : RunType
  sudo_command : Option String
  config : Config
deriving DecidableEq, Repr

/-- Modelled from the spec: `require(name)` searches the executable
search path and yields the resolved path, or a Skip-convertible Missing
with the reason attached (`utils::require` is not under `src/`). -/
def require (env : Env) (name : String) : StepRes String :=
  match env.binPath.lookup name with
  | some p => stepOk p
  | none => stepErr (.Skip ("\"" ++ name ++ "\" not found"))

/-- Modelled from the spec: `PathExt::require` is an existence-only check
on a filesystem path; a missing path is the sole trigger for Missing
(`utils.rs` is not under `src/`). -/
def require_path (env : Env) (p : String) : StepRes String :=
  if env.filesExist.contains p then stepOk p
  else stepErr (.Skip ("path \"" ++ p ++ "\" does not exist"))

/-- Modelled from the spec: `require_option` converts an already-computed
optional value into Found or Missing with the supplied reason
(`utils.rs` is not under `src/`). -/
def require_option {α : Type} (v : Option α) (reason : String) : StepRes α :=
  match v with
  | some a => stepOk a
  | none => stepErr (.Skip reason)

/-- Modelled from the spec: `check_run` on the Run-Mode Executor.  In
Simulate mode no process is spawned and the reporting sink receives a
preview; in Execute mode the process is spawned and a non-success exit
status becomes `ProcessFailed` (`executor.rs` is not under `src/`). -/
def check_run (env : Env) (rt : RunType) (c : Cmd) : StepRes Unit :=
  match rt with
  | .Dry => (.ok (), [.preview c.program c.args])
  | .Wet =>
    match procResult env c.program c.args with
    | .exited code _ =>
      if code = some 0 then (.ok (), [.spawn c.program c.args])
      else (.error (.ProcessFailed code), [.spawn c.program c.args])
    | .spawnFailed => (.error .SpawnFailed, [.spawn c.program c.args])
    | .waitFailed => (.error (.Fatal "wait failed"), [.spawn c.program c.args])

/-- Modelled from the spec: `CommandExt::check_output` on a plain
`std::process::Command` — always spawns (it does not consult the Run
Mode) and yields captured stdout on success (`executor.rs` is not under
`src/`). -/
def command_check_output (env : Env) (c : Cmd) : StepRes String :=
  match procResult env c.program c.args with
  | .exited code out =>
    if code = some 0 then (.ok out, [.spawn c.program c.args])
    else (.error (.ProcessFailed code), [.spawn c.program c.args])
  | .spawnFailed => (.error .SpawnFailed, [.spawn c.program c.args])
  | .waitFailed => (.error (.Fatal "wait failed"), [.spawn c.program c.args])

/-- Modelled from the spec: `check_output` on the Run-Mode Executor — in
Simulate mode only a preview is emitted and empty output returned
(`executor.rs` is not under `src/`). -/
def exec_check_output (env : Env) (rt : RunType) (c : Cmd) : StepRes String :=
  match rt with
  | .Dry => (.ok "", [.preview c.program c.args])
  | .Wet => command_check_output env c

/-- Exit status returned by `Executor::spawn().wait()`: a real status in
Execute mode, or the simulated marker in Simulate mode. -/
inductive ExecutorExitStatus where
  | Wet (code : Option Int)
  | Dry
deriving DecidableEq, Repr

/-- Modelled from the spec: `Executor::spawn` followed by `wait` — in
Simulate mode a preview and the `Dry` marker, in Execute mode a real
spawn whose exit status is handed back to the caller for custom
acceptable-code policy (`executor.rs` is not under `src/`). -/
def exec_spawn_wait (env : Env) (rt : RunType) (c : Cmd) : StepRes ExecutorExitStatus :=
  match rt with
  | .Dry => (.ok .Dry, [.preview c.program c.args])
  | .Wet =>
    match procResult env c.program c.args with
    | .exited code _ => (.ok (.Wet code), [.spawn c.program c.args])
    | .spawnFailed => (.error .SpawnFailed, [.spawn c.program c.args])
    | .waitFailed => (.error (.Fatal "wait failed"), [.spawn c.program c.args])

/-- `is_ok()` on an outcome. -/
def isOk {α : Type} : Outcome α → Bool
  | .ok _ => true
  | _ => false

/-- Does `hay` start with `needle`? -/
def charListStartsWith (hay needle : List Char) : Bool :=
  match needle, hay with
  | [], _ => true
  | _ :: _, [] => false
  | n :: ns, h :: hs => (h = n) && charListStartsWith hs ns

/-- Does `needle` occur contiguously inside `hay`? -/
def charListContains (hay needle : List Char) : Bool :=
  charListStartsWith hay needle ||
    match hay with
    | [] => false
    | _ :: t => charListContains t needle

/-- Rust's `str::contains` (substring occurrence). -/
def rustContains (s sub : String) : Bool :=
  charListContains s.data sub.data

/-- Rust's `Path::join` for the string paths used here. -/
def joinPath (a b : String) : String := a ++ "/" ++ b

/-- `Ini::load_from_file` followed by `general_section()`: yields the
key/value pairs of the file's general section, or a propagated parse
error (translated from the use at `unix.rs:386-390`). -/
def iniLoad (env : Env) (path : String) : StepRes (List (String × String)) :=
  match env.iniFiles.lookup path with
  | some kvs => stepOk kvs
  | none => stepErr (.Fatal "failed to load ini file")

/-- `fs::metadata(path)?.uid()`: owner uid of a path, or a propagated
error when the metadata call fails (translated from `unix.rs:287`). -/
def fsMetadataUid (env : Env) (path : String) : StepRes Nat :=
  match env.fileUid.lookup path with
  | some uid => stepOk uid
  | none => stepErr (.Fatal "failed to stat file")

/-- Modelled from the spec: `ExecutionContext::execute_elevated` prefixes
the command with the context's elevation command and runs it through the
Run-Mode Executor; the elevation command must be configured
(`execution_context.rs` is not under `src/`). -/
def execute_elevated_check_run (env : Env) (ctx : ExecutionContext) (prog : String)
    (args : List String) : StepRes Unit :=
  match ctx.sudo_command with
  | some s => check_run env ctx.run_type ⟨s, prog :: args⟩
  | none => stepErr (.Fatal "sudo is not available")

/-- Compile-time `cfg!(target_arch = ...)` of the running binary. -/
inductive Arch where
  | x86_64
  | aarch64
  | otherArch
deriving DecidableEq, Repr

/-- Compile-time `cfg!(target_os = ...)` of the running binary. -/
inductive OS where
  | linux
  | macos
  | otherOS
deriving DecidableEq, Repr

def INTEL_BREW : String := "/usr/local/bin/brew"

def ARM_BREW : String := "/opt/homebrew/bin/brew"

/-- `BrewVariant` (`unix.rs:24-28`). -/
inductive BrewVariant where
  | Path
  | MacIntel
  | MacArm
deriving DecidableEq, Repr

/-- `BrewVariant::binary_name` (`unix.rs:31-37`). -/
def BrewVariant.binary_name : BrewVariant → String
  | .Path => "brew"
  | .MacIntel => INTEL_BREW
  | .MacArm => ARM_BREW

/-- `BrewVariant::is_path` (`unix.rs:40-42`). -/
def BrewVariant.is_path : BrewVariant → Bool
  | .Path => true
  | _ => false

/-- `BrewVariant::both_both_exist` (`unix.rs:44-46`): read-only existence
check of the two fixed install locations. -/
def BrewVariant.both_both_exist (env : Env) : Bool :=
  env.filesExist.contains INTEL_BREW && env.filesExist.contains ARM_BREW

/-- `BrewVariant::step_title` (`unix.rs:48-55`). -/
def BrewVariant.step_title (v : BrewVariant) (env : Env) : String :=
  let both_exists := BrewVariant.both_both_exist env
  match v with
  | .MacArm => if both_exists then "Brew (ARM)" else "Brew"
  | .MacIntel => if both_exists then "Brew (Intel)" else "Brew"
  | .Path => "Brew"

/-- `BrewVariant::is_macos_custom` (`unix.rs:74-76`). -/
def BrewVariant.is_macos_custom (binary_name : String) : Bool :=
  !(binary_name = INTEL_BREW || binary_name = ARM_BREW)

/-- `BrewVariant::execute` (`unix.rs:57-71`): builds the command
description, inserting the `arch` translation wrapper when the variant's
architecture differs from the process's.  Pure construction, no
events. -/
def BrewVariant.execute (v : BrewVariant) (arch : Arch) : Cmd :=
  match v, arch with
  | .MacIntel, .aarch64 => ⟨"arch", ["-x86_64", INTEL_BREW]⟩
  | .MacArm, .x86_64 => ⟨"arch", ["-arm64e", ARM_BREW]⟩
  | v, _ => ⟨v.binary_name, []⟩

/-- `run_pkgin` (`unix.rs:117-133`): note the bare `unwrap()` on
`ctx.sudo()` before each sub-command. -/
def run_pkgin (env : Env) (ctx : ExecutionContext) : StepRes Unit :=
  stepBind (require env "pkgin") fun pkgin =>
  match ctx.sudo_command with
  | none => (.panic "called Option::unwrap on a None value", [])
  | some s =>
    let args1 := [pkgin, "update"] ++ (if ctx.config.yes_pkgin then ["-y"] else [])
    stepBind (check_run env ctx.run_type ⟨s, args1⟩) fun _ =>
    let args2 := [pkgin, "upgrade"] ++ (if ctx.config.yes_pkgin then ["-y"] else [])
    check_run env ctx.run_type ⟨s, args2⟩

def gdbusListArgs : List String :=
  ["call", "--session", "--dest", "org.freedesktop.DBus", "--object-path",
   "/org/freedesktop/DBus", "--method", "org.freedesktop.DBus.ListActivatableNames"]

def gdbusUpdateArgs : List String :=
  ["call", "--session", "--dest", "org.gnome.Shell.Extensions", "--object-path",
   "/org/gnome/Shell/Extensions", "--method", "org.gnome.Shell.Extensions.CheckForUpdates"]

/-- `upgrade_gnome_extensions` (`unix.rs:148-187`): the DBus activatable
name query is issued with a plain `Command::new`, outside the Run-Mode
Executor. -/
def upgrade_gnome_extensions (env : Env) (ctx : ExecutionContext) : StepRes Unit :=
  stepBind (require env "gdbus") fun gdbus =>
  stepBind (require_option
      ((envVar env "XDG_CURRENT_DESKTOP").filter fun p => rustContains p "GNOME")
      "Desktop doest not appear to be gnome") fun _ =>
  stepBind (command_check_output env ⟨"gdbus", gdbusListArgs⟩) fun output =>
  if !(rustContains output "org.gnome.Shell.Extensions") then
    stepErr (.Skip "Gnome shell extensions are unregistered in DBus")
  else
  stepBind (stepEmit (.separator "Gnome Shell extensions")) fun _ =>
  check_run env ctx.run_type ⟨gdbus, gdbusUpdateArgs⟩

/-- `run_brew_formula` (`unix.rs:189-218`); `macos` reflects
`cfg!(target_os = "macos")` of the build. -/
def run_brew_formula (env : Env) (ctx : ExecutionContext) (variant : BrewVariant)
    (arch : Arch) (macos : Bool) : StepRes Unit :=
  stepBind (require env variant.binary_name) fun binary_name =>
  if macos && (variant.is_path && !(BrewVariant.is_macos_custom binary_name)) then
    stepErr (.Skip "Not a custom brew for macOS")
  else
  stepBind (stepEmit (.separator (variant.step_title env))) fun _ =>
  let run_type := ctx.run_type
  stepBind (check_run env run_type ((variant.execute arch).addArgs ["update"])) fun _ =>
  stepBind (check_run env run_type
      ((variant.execute arch).addArgs ["upgrade", "--ignore-pinned", "--formula"])) fun _ =>
  stepBind (if ctx.config.cleanup then
      check_run env run_type ((variant.execute arch).addArgs ["cleanup"])
    else stepOk ()) fun _ =>
  stepBind (if ctx.config.brew_autoremove then
      check_run env run_type ((variant.execute arch).addArgs ["autoremove"])
    else stepOk ()) fun _ =>
  stepOk ()

/-- `run_brew_cask` (`unix.rs:221-256`, a macOS-only build item): the
cask-upgrade repository query is issued with `RunType::Wet` explicitly,
bypassing the context's Run Mode. -/
def run_brew_cask (env : Env) (ctx : ExecutionContext) (variant : BrewVariant)
    (arch : Arch) : StepRes Unit :=
  stepBind (require env variant.binary_name) fun binary_name =>
  if variant.is_path && !(BrewVariant.is_macos_custom binary_name) then
    stepErr (.Skip "Not a custom brew for macOS")
  else
  stepBind (stepEmit (.separator (variant.step_title env ++ " - Cask"))) fun _ =>
  let run_type := ctx.run_type
  stepBind (exec_check_output env .Wet
      ((variant.execute arch).addArgs ["--repository", "buo/cask-upgrade"])) fun p =>
  let cask_upgrade_exists := env.filesExist.contains p.trim
  let brew_args :=
    if cask_upgrade_exists then
      ["cu", "-y"] ++ (if ctx.config.brew_cask_greedy then ["-a"] else [])
    else
      ["upgrade", "--cask"] ++ (if ctx.config.brew_cask_greedy then ["--greedy"] else [])
  stepBind (check_run env run_type ((variant.execute arch).addArgs brew_args)) fun _ =>
  if ctx.config.cleanup then
    check_run env run_type ((variant.execute arch).addArgs ["cleanup"])
  else stepOk ()

/-- `run_guix` (`unix.rs:258-274`): the `guix pull` probe is issued with a
plain `Command::new`, outside the Run-Mode Executor; its failure is
turned into a Skip. -/
def run_guix (env : Env) (ctx : ExecutionContext) : StepRes Unit :=
  stepBind (require env "guix") fun guix =>
  let run_type := ctx.run_type
  let output := command_check_output env ⟨guix, ["pull"]⟩
  let should_upgrade := isOk output.1
  prependEvents output.2
    (stepBind (stepEmit (.separator "Guix")) fun _ =>
      if should_upgrade then
        check_run env run_type ⟨guix, ["package", "-u"]⟩
      else
        stepErr (.Skip "Guix Pull Failed, Skipping"))

/-- `run_nix` (`unix.rs:276-321`): the `nix-env --query nix` probe is
issued with a plain `Command::new`, outside the Run-Mode Executor.  `os`
and `nixos` reflect the compile-time `cfg` blocks and the Linux
distribution detection. -/
def run_nix (env : Env) (ctx : ExecutionContext) (os : OS) (nixos : Bool) : StepRes Unit :=
  stepBind (require env "nix") fun nix =>
  stepBind (require env "nix-channel") fun nix_channel =>
  stepBind (require env "nix-env") fun nix_env =>
  let output := command_check_output env ⟨nix_env, ["--query", "nix"]⟩
  let should_self_upgrade := isOk output.1
  prependEvents output.2
    (stepBind (stepEmit (.separator "Nix")) fun _ =>
    stepBind (fsMetadataUid env nix) fun uid =>
    let multi_user := uid = 0
    if os = .linux && nixos then
      stepErr (.Skip "Nix on NixOS must be upgraded via nixos-rebuild switch")
    else if os = .macos && (env.binPath.lookup "darwin-rebuild").isSome then
      stepErr (.Skip "Nix-darwin on macOS must be upgraded via darwin-rebuild switch")
    else
    let run_type := ctx.run_type
    stepBind (if should_self_upgrade then
        if multi_user then execute_elevated_check_run env ctx nix ["upgrade-nix"]
        else check_run env run_type ⟨nix, ["upgrade-nix"]⟩
      else stepOk ()) fun _ =>
    stepBind (check_run env run_type ⟨nix_channel, ["--update"]⟩) fun _ =>
    check_run env run_type ⟨nix_env, ["--upgrade"]⟩)

/-- `run_asdf` (`unix.rs:331-343`): `asdf update` is spawned through the
Executor and its real exit status inspected, accepting success or the
special exit code 42 before issuing the plugin update. -/
def run_asdf (env : Env) (run_type : RunType) : StepRes Unit :=
  stepBind (require env "asdf") fun asdf =>
  stepBind (stepEmit (.separator "asdf")) fun _ =>
  stepBind (exec_spawn_wait env run_type ⟨asdf, ["update"]⟩) fun exit_status =>
  match exit_status with
  | .Wet e =>
    if !(e = some 0 || e = some 42) then
      stepErr (.ProcessFailed e)
    else
      check_run env run_type ⟨asdf, ["plugin", "update", "--all"]⟩
  | .Dry => check_run env run_type ⟨asdf, ["plugin", "update", "--all"]⟩

/-- `run_sdkman` (`unix.rs:366-424`). -/
def run_sdkman (env : Env) (home_dir : String) (cleanup : Bool)
    (run_type : RunType) : StepRes Unit :=
  stepBind (require env "bash") fun bash =>
  let sdkman_dir := (envVar env "SDKMAN_DIR").getD (joinPath home_dir ".sdkman")
  stepBind (require_path env (joinPath (joinPath sdkman_dir "bin") "sdkman-init.sh"))
    fun sdkman_init_path =>
  stepBind (stepEmit (.separator "SDKMAN!")) fun _ =>
  stepBind (require_path env (joinPath (joinPath sdkman_dir "etc") "config"))
    fun sdkman_config_path =>
  stepBind (iniLoad env sdkman_config_path) fun sdkman_config =>
  let selfupdate_enabled := (sdkman_config.lookup "sdkman_selfupdate_feature").getD "false"
  stepBind (if selfupdate_enabled = "true" then
      check_run env run_type ⟨bash, ["-c", "source " ++ sdkman_init_path ++ " && sdk selfupdate"]⟩
    else stepOk ()) fun _ =>
  stepBind (check_run env run_type
      ⟨bash, ["-c", "source " ++ sdkman_init_path ++ " && sdk update"]⟩) fun _ =>
  stepBind (check_run env run_type
      ⟨bash, ["-c", "source " ++ sdkman_init_path ++ " && sdk upgrade"]⟩) fun _ =>
  if cleanup then
    stepBind (check_run env run_type
        ⟨bash, ["-c", "source " ++ sdkman_init_path ++ " && sdk flush archives"]⟩) fun _ =>
    check_run env run_type
      ⟨bash, ["-c", "source " ++ sdkman_init_path ++ " && sdk flush temp"]⟩
  else stepOk ()

/-- `reboot` (`unix.rs:434-437`): takes no Execution Context and no Run
Mode at all; it spawns `sudo reboot` with a plain `Command::new` and
unwraps both the spawn and the wait result, panicking on failure. -/
def reboot (env : Env) : StepRes Unit :=
  stepBind (stepEmit (.print "Rebooting...")) fun _ =>
  match procResult env "sudo" ["reboot"] with
  | .exited _ _ => (.ok (), [.spawn "sudo" ["reboot"]])
  | .spawnFailed => (.panic "called Result::unwrap on an Err value", [.spawn "sudo" ["reboot"]])
  | .waitFailed => (.panic "called Result::unwrap on an Err value", [.spawn "sudo" ["reboot"]])

/-- Is an event a real process creation? -/
def isSpawn : Event → Bool
  | .spawn _ _ => true
  | _ => false

/-- The real process creations of a trace, in order. -/
def spawns (es : List Event) : List Event := es.filter isSpawn

/-- The commands handed to the Executor (spawned or previewed), in
order. -/
def issuedCmds (es : List Event) : List Cmd :=
  es.filterMap fun e =>
    match e with
    | .spawn p a => some ⟨p, a⟩
    | .preview p a => some ⟨p, a⟩
    | _ => none

/-- Issue a fixed list of commands in order through `check_run`,
stopping at the first failure: the common shape of the multi-command
steps. -/
def runSeq (env : Env) (rt : RunType) : List Cmd → StepRes Unit
  | [] => stepOk ()
  | c :: cs => stepBind (check_run env rt c) fun _ => runSeq env rt cs

theorem stepBind_stepOk {α β : Type} (a : α) (f : α → StepRes β) :
    stepBind (stepOk a) f = f a := by
  simp [stepBind, stepOk]

theorem stepBind_stepEmit {β : Type} (e : Event) (f : Unit → StepRes β) :
    stepBind (stepEmit e) f = prependEvents [e] (f ()) := by
  simp [stepBind, stepEmit, prependEvents]

theorem stepBind_fst_of_ok {α β : Type} {r : StepRes α} {a : α} (f : α → StepRes β)
    (h : r.1 = .ok a) : stepBind r f = ((f a).1, r.2 ++ (f a).2) := by
  unfold stepBind
  rw [h]

theorem stepBind_fst_of_error {α β : Type} {r : StepRes α} {e : StepError}
    (f : α → StepRes β) (h : r.1 = .error e) : stepBind r f = (.error e, r.2) := by
  unfold stepBind
  rw [h]

theorem spawns_append (a b : List Event) : spawns (a ++ b) = spawns a ++ spawns b := by
  simp [spawns]

theorem issuedCmds_append (a b : List Event) :
    issuedCmds (a ++ b) = issuedCmds a ++ issuedCmds b := by
  simp [issuedCmds]

theorem check_run_dry (env : Env) (c : Cmd) :
    check_run env .Dry c = (.ok (), [.preview c.program c.args]) := rfl

theorem check_run_snd (env : Env) (rt : RunType) (c : Cmd) :
    (check_run env rt c).2 = [match rt with
      | .Dry => .preview c.program c.args
      | .Wet => .spawn c.program c.args] := by
  cases rt with
  | Dry => rfl
  | Wet =>
    unfold check_run
    cases procResult env c.program c.args with
    | exited code out => by_cases h : code = some 0 <;> simp [h]
    | spawnFailed => rfl
    | waitFailed => rfl

theorem check_run_issued (env : Env) (rt : RunType) (c : Cmd) :
    issuedCmds (check_run env rt c).2 = [c] := by
  rw [check_run_snd]
  cases rt <;> simp [issuedCmds]

theorem check_run_no_skip (env : Env) (rt : RunType) (c : Cmd) (reason : String) :
    (check_run env rt c).1 ≠ .error (.Skip reason) := by
  cases rt with
  | Dry => simp [check_run]
  | Wet =>
    unfold check_run
    cases procResult env c.program c.args with
    | exited code out => by_cases h : code = some 0 <;> simp [h]
    | spawnFailed => simp
    | waitFailed => simp

theorem check_run_not_panic (env : Env) (rt : RunType) (c : Cmd) (m : String) :
    (check_run env rt c).1 ≠ .panic m := by
  cases rt with
  | Dry => simp [check_run]
  | Wet =>
    unfold check_run
    cases procResult env c.program c.args with
    | exited code out => by_cases h : code = some 0 <;> simp [h]
    | spawnFailed => simp
    | waitFailed => simp

theorem runSeq_error_issued (env : Env) (rt : RunType) (cs : List Cmd) (e : StepError)
    (h : (runSeq env rt cs).1 = .error e) :
    ∃ pre c post, cs = pre ++ c :: post ∧
      issuedCmds (runSeq env rt cs).2 = pre ++ [c] ∧
      (check_run env rt c).1 = .error e ∧
      ∀ c2 ∈ pre, (check_run env rt c2).1 = .ok () := by
  induction cs with
  | nil => simp [runSeq, stepOk] at h
  | cons c rest ih =>
    unfold runSeq at h ⊢
    rcases hc : (check_run env rt c).1 with a | e2 | m
    · rw [stepBind_fst_of_ok _ hc] at h ⊢
      simp only at h
      obtain ⟨pre, cf, post, hcs, hiss, hfail, hpre⟩ := ih h
      refine ⟨c :: pre, cf, post, by rw [hcs]; rfl, ?_, hfail, ?_⟩
      · show issuedCmds ((check_run env rt c).2 ++ (runSeq env rt rest).2) = (c :: pre) ++ [cf]
        rw [issuedCmds_append, check_run_issued, hiss]
        rfl
      · intro c2 hc2
        rcases List.mem_cons.1 hc2 with h1 | h1
        · cases a
          rw [h1]
          exact hc
        · exact hpre c2 h1
    · rw [stepBind_fst_of_error _ hc] at h
      simp only at h
      obtain rfl : e2 = e := by injection h
      refine ⟨[], c, rest, rfl, ?_, hc, by intro c2 hc2; simp at hc2⟩
      rw [stepBind_fst_of_error _ hc]
      show issuedCmds (check_run env rt c).2 = [] ++ [c]
      rw [check_run_issued]
      rfl
    · exact absurd hc (check_run_not_panic env rt c m)

theorem runSeq_issued_sub (env : Env) (rt : RunType) (cs : List Cmd) :
    ∃ t, issuedCmds (runSeq env rt cs).2 ++ t = cs := by
  induction cs with
  | nil => exact ⟨[], rfl⟩
  | cons c rest ih =>
    unfold runSeq
    rcases h : (check_run env rt c).1 with a | e | m
    · rw [stepBind_fst_of_ok _ h]
      obtain ⟨t, ht⟩ := ih
      exact ⟨t, by simp [issuedCmds_append, check_run_issued, ht]⟩
    · rw [stepBind_fst_of_error _ h]
      exact ⟨rest, by simp [check_run_issued]⟩
    · exact absurd h (by
        cases rt with
        | Dry => simp [check_run]
        | Wet =>
          unfold check_run
          cases procResult env c.program c.args with
          | exited code out => by_cases hc : code = some 0 <;> simp [hc]
          | spawnFailed => simp
          | waitFailed => simp)

theorem runSeq_issued_mem (env : Env) (rt : RunType) (cs : List Cmd) (c : Cmd)
    (h : c ∈ issuedCmds (runSeq env rt cs).2) : c ∈ cs := by
  obtain ⟨t, ht⟩ := runSeq_issued_sub env rt cs
  rw [← ht]
  exact List.mem_append_left _ h

theorem runSeq_ok_issued (env : Env) (rt : RunType) (cs : List Cmd)
    (h : (runSeq env rt cs).1 = .ok ()) : issuedCmds (runSeq env rt cs).2 = cs := by
  induction cs with
  | nil => rfl
  | cons c rest ih =>
    unfold runSeq at h ⊢
    rcases hc : (check_run env rt c).1 with a | e | m
    · rw [stepBind_fst_of_ok _ hc] at h ⊢
      simp only at h
      simp [issuedCmds_append, check_run_issued, ih h]
    · rw [stepBind_fst_of_error _ hc] at h
      simp at h
    · exact absurd hc (by
        cases rt with
        | Dry => simp [check_run]
        | Wet =>
          unfold check_run
          cases procResult env c.program c.args with
          | exited code out => by_cases hz : code = some 0 <;> simp [hz]
          | spawnFailed => simp
          | waitFailed => simp)

theorem runSeq_head_issued (env : Env) (rt : RunType) (c : Cmd) (cs : List Cmd) :
    ∃ t, issuedCmds (runSeq env rt (c :: cs)).2 = c :: t := by
  unfold runSeq
  rcases h : (check_run env rt c).1 with a | e | m
  · rw [stepBind_fst_of_ok _ h]
    exact ⟨issuedCmds (runSeq env rt cs).2, by simp [issuedCmds_append, check_run_issued]⟩
  · rw [stepBind_fst_of_error _ h]
    exact ⟨[], by simp [check_run_issued]⟩
  · exact absurd h (by
      cases rt with
      | Dry => simp [check_run]
      | Wet =>
        unfold check_run
        cases procResult env c.program c.args with
        | exited code out => by_cases hz : code = some 0 <;> simp [hz]
        | spawnFailed => simp
        | waitFailed => simp)

theorem command_check_output_snd (env : Env) (c : Cmd) :
    (command_check_output env c).2 = [.spawn c.program c.args] := by
  unfold command_check_output
  cases procResult env c.program c.args with
  | exited code out => by_cases h : code = some 0 <;> simp [h]
  | spawnFailed => rfl
  | waitFailed => rfl

theorem issuedCmds_sep_cons (t : String) (es : List Event) :
    issuedCmds (Event.separator t :: es) = issuedCmds es := rfl

theorem prependEvents_fst {α : Type} (es : List Event) (r : StepRes α) :
    (prependEvents es r).1 = r.1 := rfl

theorem prependEvents_snd {α : Type} (es : List Event) (r : StepRes α) :
    (prependEvents es r).2 = es ++ r.2 := rfl

theorem runSeq_dry_no_spawn (env : Env) (cs : List Cmd) :
    spawns (runSeq env .Dry cs).2 = [] := by
  induction cs with
  | nil => rfl
  | cons c rest ih =>
    unfold runSeq
    rw [stepBind_fst_of_ok _ (by rfl : (check_run env .Dry c).1 = .ok ())]
    show spawns ((check_run env RunType.Dry c).2 ++ (runSeq env RunType.Dry rest).2) = []
    rw [spawns_append, ih]
    rfl

theorem stepBind_snd {α β : Type} (r : StepRes α) (f : α → StepRes β) :
    (stepBind r f).2 = r.2 ++ (match r.1 with
      | .ok a => (f a).2
      | .error _ => []
      | .panic _ => []) := by
  unfold stepBind
  rcases r with ⟨o, es⟩
  cases o <;> simp

theorem spawns_stepBind_nil {α β : Type} {r : StepRes α} {f : α → StepRes β}
    (h1 : spawns r.2 = []) (h2 : ∀ a, spawns (f a).2 = []) :
    spawns (stepBind r f).2 = [] := by
  rw [stepBind_snd, spawns_append, h1, List.nil_append]
  cases hr : r.1 with
  | ok a => exact h2 a
  | error e => rfl
  | panic m => rfl

theorem spawns_check_run_dry (env : Env) (c : Cmd) :
    spawns (check_run env .Dry c).2 = [] := rfl

theorem spawns_execute_elevated_dry (env : Env) (ctx : ExecutionContext) (p : String)
    (a : List String) (hrt : ctx.run_type = .Dry) :
    spawns (execute_elevated_check_run env ctx p a).2 = [] := by
  unfold execute_elevated_check_run
  cases ctx.sudo_command <;> simp [hrt, check_run_dry, spawns, isSpawn, stepErr]

/-- The spawn trace of `run_guix` with Run Mode Simulate and `guix`
resolvable: exactly the directly spawned `guix pull` probe. -/
theorem run_guix_dry_spawns (env : Env) (ctx : ExecutionContext) (p : String)
    (hrt : ctx.run_type = .Dry) (hp : env.binPath.lookup "guix" = some p) :
    spawns (run_guix env ctx).2 = [.spawn p ["pull"]] := by
  simp only [run_guix, require, hp, stepBind_stepOk, stepBind_stepEmit, hrt]
  rw [prependEvents_snd, spawns_append, command_check_output_snd, prependEvents_snd,
    spawns_append]
  cases hok : isOk (command_check_output env ⟨p, ["pull"]⟩).1 <;>
    simp [hok, spawns, isSpawn, check_run_dry, stepErr]

/-- The spawn trace of `run_nix` with Run Mode Simulate and all three nix
binaries resolvable: exactly the directly spawned `nix-env --query nix`
probe. -/
theorem run_nix_dry_spawns (env : Env) (ctx : ExecutionContext) (os : OS) (nixos : Bool)
    (n nc ne : String) (hrt : ctx.run_type = .Dry)
    (h1 : env.binPath.lookup "nix" = some n)
    (h2 : env.binPath.lookup "nix-channel" = some nc)
    (h3 : env.binPath.lookup "nix-env" = some ne) :
    spawns (run_nix env ctx os nixos).2 = [.spawn ne ["--query", "nix"]] := by
  simp only [run_nix, require, h1, h2, h3, stepBind_stepOk, stepBind_stepEmit, hrt]
  rw [prependEvents_snd, spawns_append, command_check_output_snd, prependEvents_snd,
    spawns_append]
  have hbody : spawns (stepBind (fsMetadataUid env n) fun uid =>
      (if (decide (os = OS.linux) && nixos) = true then
        (stepErr (.Skip "Nix on NixOS must be upgraded via nixos-rebuild switch") : StepRes Unit)
      else if (decide (os = OS.macos) && (env.binPath.lookup "darwin-rebuild").isSome) = true then
        stepErr (.Skip "Nix-darwin on macOS must be upgraded via darwin-rebuild switch")
      else
        stepBind (if isOk (command_check_output env ⟨ne, ["--query", "nix"]⟩).1 = true then
            if uid = 0 then execute_elevated_check_run env ctx n ["upgrade-nix"]
            else check_run env RunType.Dry ⟨n, ["upgrade-nix"]⟩
          else stepOk ()) fun _ =>
        stepBind (check_run env RunType.Dry ⟨nc, ["--update"]⟩) fun _ =>
        check_run env RunType.Dry ⟨ne, ["--upgrade"]⟩)).2 = [] := by
    apply spawns_stepBind_nil
    · unfold fsMetadataUid
      cases env.fileUid.lookup n <;> rfl
    · intro uid
      split
      · rfl
      · split
        · rfl
        · apply spawns_stepBind_nil
          · split
            · split
              · exact spawns_execute_elevated_dry env ctx n ["upgrade-nix"] hrt
              · rfl
            · rfl
          · intro _
            apply spawns_stepBind_nil
            · rfl
            · intro _
              rfl
  rw [hbody]
  rfl

/-- The spawn trace of `upgrade_gnome_extensions` with Run Mode Simulate,
`gdbus` resolvable and a GNOME desktop: exactly the directly spawned
DBus activatable-names query. -/
theorem gnome_dry_spawns (env : Env) (ctx : ExecutionContext) (g d : String)
    (hrt : ctx.run_type = .Dry)
    (hg : env.binPath.lookup "gdbus" = some g)
    (hd : envVar env "XDG_CURRENT_DESKTOP" = some d)
    (hds : rustContains d "GNOME" = true) :
    spawns (upgrade_gnome_extensions env ctx).2 = [.spawn "gdbus" gdbusListArgs] := by
  simp only [upgrade_gnome_extensions, require, hg, stepBind_stepOk, hd, Option.filter,
    hds, if_true, require_option, hrt]
  rw [stepBind_snd, spawns_append, command_check_output_snd]
  cases hcc : (command_check_output env ⟨"gdbus", gdbusListArgs⟩).1 with
  | ok output =>
    split
    · split
      · rfl
      · rw [stepBind_stepEmit, prependEvents_snd, spawns_append]
        rfl
    · rfl
    · rfl
  | error e => rfl
  | panic m => rfl

/-- The spawn trace of `run_brew_cask` with Run Mode Simulate, the
variant's binary resolvable and the macOS-custom guard passed: exactly
the forced-Wet cask-upgrade repository query. -/
theorem cask_dry_spawns (env : Env) (ctx : ExecutionContext) (v : BrewVariant)
    (arch : Arch) (bn : String) (hrt : ctx.run_type = .Dry)
    (hb : env.binPath.lookup (BrewVariant.binary_name v) = some bn)
    (hguard : (v.is_path && !(BrewVariant.is_macos_custom bn)) = false) :
    spawns (run_brew_cask env ctx v arch).2
      = [.spawn ((v.execute arch).addArgs ["--repository", "buo/cask-upgrade"]).program
                ((v.execute arch).addArgs ["--repository", "buo/cask-upgrade"]).args] := by
  simp only [run_brew_cask, require, hb, stepBind_stepOk, hguard, Bool.false_eq_true,
    if_false, stepBind_stepEmit, hrt, exec_check_output]
  rw [prependEvents_snd, spawns_append, stepBind_snd, spawns_append,
    command_check_output_snd]
  cases hcc : (command_check_output env
      ((v.execute arch).addArgs ["--repository", "buo/cask-upgrade"])).1 with
  | ok p =>
    split
    · rw [stepBind_snd, spawns_append]
      simp only [check_run_dry]
      split <;> split <;> split <;> rfl
    · rfl
    · rfl
  | error e => rfl
  | panic m => rfl

/-- C4: for every environment in which the binary `guix` is absent from
the executable search path, `run_guix` returns a Skip error carrying the
not-found reason and spawns no process — its event trace is empty, so
no Executor call is made at all. -/
theorem C4_guix_missing_skip_no_spawn (env : Env) (ctx : ExecutionContext)
    (h : env.binPath.lookup "guix" = none) :
    run_guix env ctx = (.error (.Skip ("\"" ++ "guix" ++ "\"" ++ " not found")), []) := by
  unfold run_guix require
  rw [h]
  rfl

/-- Witness for C4 at a concrete empty environment. -/
theorem C4_witness :
    (⟨[], [], [], [], [], []⟩ : Env).binPath.lookup "guix" = none ∧
    run_guix ⟨[], [], [], [], [], []⟩ ⟨.Dry, none, ⟨false, false, false, false⟩⟩
      = (.error (.Skip ("\"" ++ "guix" ++ "\"" ++ " not found")), []) :=
  ⟨rfl, C4_guix_missing_skip_no_spawn _ _ rfl⟩

/-- C5: when both fixed brew install locations exist,
`BrewVariant::step_title` yields the two mutually distinct disambiguated
labels; when at most one exists, every variant's label is plain
"Brew". -/
theorem C5_brew_step_title (env : Env) :
    (BrewVariant.both_both_exist env = true →
      BrewVariant.step_title .MacIntel env = "Brew (Intel)" ∧
      BrewVariant.step_title .MacArm env = "Brew (ARM)" ∧
      BrewVariant.step_title .MacIntel env ≠ BrewVariant.step_title .MacArm env) ∧
    (BrewVariant.both_both_exist env = false →
      ∀ v : BrewVariant, BrewVariant.step_title v env = "Brew") := by
  constructor
  · intro h
    refine ⟨by simp [BrewVariant.step_title, h], by simp [BrewVariant.step_title, h], ?_⟩
    simp only [BrewVariant.step_title, h, if_true]
    decide
  · intro h v
    cases v <;> simp [BrewVariant.step_title, h]

/-- Witness for C5: both locations present gives distinct labels; one
location absent gives "Brew" for every variant. -/
theorem C5_witness :
    BrewVariant.both_both_exist ⟨[], [INTEL_BREW, ARM_BREW], [], [], [], []⟩ = true ∧
    BrewVariant.step_title .MacIntel ⟨[], [INTEL_BREW, ARM_BREW], [], [], [], []⟩
        = "Brew (Intel)" ∧
    BrewVariant.step_title .MacArm ⟨[], [INTEL_BREW, ARM_BREW], [], [], [], []⟩
        = "Brew (ARM)" ∧
    BrewVariant.both_both_exist ⟨[], [INTEL_BREW], [], [], [], []⟩ = false ∧
    BrewVariant.step_title .MacArm ⟨[], [INTEL_BREW], [], [], [], []⟩ = "Brew" := by
  refine ⟨by decide, ?_, ?_, by decide, ?_⟩
  · exact ((C5_brew_step_title _).1 (by decide)).1
  · exact ((C5_brew_step_title _).1 (by decide)).2.1
  · exact (C5_brew_step_title _).2 (by decide) .MacArm

/-- C9: `run_pkgin` has the unstated precondition that an elevation
command is configured — with `pkgin` found and `ctx.sudo()` empty it
panics via `unwrap` on `None` instead of returning any step error. -/
theorem C9_pkgin_unwrap_panic (env : Env) (ctx : ExecutionContext) (p : String)
    (hp : env.binPath.lookup "pkgin" = some p) (hs : ctx.sudo_command = none) :
    run_pkgin env ctx = (.panic "called Option::unwrap on a None value", []) := by
  unfold run_pkgin require
  rw [hp, hs]
  rfl

/-- Witness for C9 at a concrete environment with `pkgin` present and no
configured elevation command. -/
theorem C9_witness :
    (⟨[("pkgin", "/usr/bin/pkgin")], [], [], [], [], []⟩ : Env).binPath.lookup "pkgin"
        = some "/usr/bin/pkgin" ∧
    (⟨.Wet, none, ⟨false, false, false, false⟩⟩ : ExecutionContext).sudo_command = none ∧
    run_pkgin ⟨[("pkgin", "/usr/bin/pkgin")], [], [], [], [], []⟩
        ⟨.Wet, none, ⟨false, false, false, false⟩⟩
      = (.panic "called Option::unwrap on a None value", []) :=
  ⟨rfl, rfl, C9_pkgin_unwrap_panic _ _ "/usr/bin/pkgin" rfl rfl⟩

/-- C10: `reboot` takes no Run Mode input at all and unconditionally
spawns a real `sudo reboot` process; if the spawn or the wait fails it
panics via `unwrap`, and it never returns a step error value. -/
theorem C10_reboot_unconditional_spawn (env : Env) :
    (reboot env).2 = [.print "Rebooting...", .spawn "sudo" ["reboot"]] ∧
    (procResult env "sudo" ["reboot"] = .spawnFailed →
      (reboot env).1 = .panic "called Result::unwrap on an Err value") ∧
    (procResult env "sudo" ["reboot"] = .waitFailed →
      (reboot env).1 = .panic "called Result::unwrap on an Err value") ∧
    (∀ e : StepError, (reboot env).1 ≠ .error e) := by
  unfold reboot
  rcases hp : procResult env "sudo" ["reboot"] with ⟨code, out⟩ | _ | _ <;>
    simp [stepBind_stepEmit, prependEvents, hp]

/-- Witness for C10: a concrete environment whose `sudo reboot` spawn
fails, exercising the panic branch, and one where it succeeds. -/
theorem C10_witness :
    procResult ⟨[], [], [], [], [(("sudo", ["reboot"]), .spawnFailed)], []⟩ "sudo" ["reboot"]
        = .spawnFailed ∧
    (reboot ⟨[], [], [], [], [(("sudo", ["reboot"]), .spawnFailed)], []⟩).1
        = .panic "called Result::unwrap on an Err value" ∧
    (reboot ⟨[], [], [], [], [], []⟩).2
        = [.print "Rebooting...", .spawn "sudo" ["reboot"]] :=
  ⟨rfl, (C10_reboot_unconditional_spawn _).2.1 rfl, (C10_reboot_unconditional_spawn _).1⟩

/-- C3: in `run_asdf` (Execute mode), exit status 0 or exit code exactly
42 of `asdf update` is treated as success and `asdf plugin update --all`
is still issued; any other exit status yields `ProcessFailed` and the
plugin update is not issued (the trace ends at `asdf update`). -/
theorem C3_asdf_exit_code_policy (env : Env) (p : String) (c : Option Int) (out : String)
    (hp : env.binPath.lookup "asdf" = some p)
    (hr : procResult env p ["update"] = .exited c out) :
    ((c = some 0 ∨ c = some 42) →
      (run_asdf env .Wet).2
        = [.separator "asdf", .spawn p ["update"], .spawn p ["plugin", "update", "--all"]]) ∧
    (¬(c = some 0 ∨ c = some 42) →
      (run_asdf env .Wet).1 = .error (.ProcessFailed c) ∧
      (run_asdf env .Wet).2 = [.separator "asdf", .spawn p ["update"]]) := by
  simp only [run_asdf, require, hp, stepBind_stepOk, stepBind_stepEmit, exec_spawn_wait, hr]
  constructor
  · intro hc
    have hb : (decide (c = some 0) || decide (c = some 42)) = true := by
      rcases hc with h | h <;> simp [h]
    simp [stepBind, hb, prependEvents, check_run_snd]
  · intro hc
    push_neg at hc
    have hb : (decide (c = some 0) || decide (c = some 42)) = false := by
      simp [hc.1, hc.2]
    simp [stepBind, hb, prependEvents, stepErr]

/-- Witness for C3: exit code 42 still leads to the plugin update, and
exit code 7 yields `ProcessFailed` with no plugin update issued. -/
theorem C3_witness :
    (run_asdf ⟨[("asdf", "/usr/bin/asdf")], [], [], [],
        [(("/usr/bin/asdf", ["update"]), .exited (some 42) "")], []⟩ .Wet).2
      = [.separator "asdf", .spawn "/usr/bin/asdf" ["update"],
         .spawn "/usr/bin/asdf" ["plugin", "update", "--all"]] ∧
    (run_asdf ⟨[("asdf", "/usr/bin/asdf")], [], [], [],
        [(("/usr/bin/asdf", ["update"]), .exited (some 7) "")], []⟩ .Wet).1
      = .error (.ProcessFailed (some 7)) :=
  ⟨(C3_asdf_exit_code_policy ⟨[("asdf", "/usr/bin/asdf")], [], [], [],
        [(("/usr/bin/asdf", ["update"]), .exited (some 42) "")], []⟩
      "/usr/bin/asdf" (some 42) "" rfl rfl).1 (Or.inr rfl),
   ((C3_asdf_exit_code_policy ⟨[("asdf", "/usr/bin/asdf")], [], [], [],
        [(("/usr/bin/asdf", ["update"]), .exited (some 7) "")], []⟩
      "/usr/bin/asdf" (some 7) "" rfl rfl).2 (by simp)).1⟩

/-- C2 as stated is false: with `guix` present on the search path and the
executed `guix pull` probe exiting with status 1, `run_guix` returns a
Skip that originates from an executed process's failure, not from a
Missing probe result. -/
theorem C2_counterexample :
    (run_guix ⟨[("guix", "/usr/bin/guix")], [], [], [],
        [(("/usr/bin/guix", ["pull"]), .exited (some 1) "")], []⟩
        ⟨.Wet, none, ⟨false, false, false, false⟩⟩).1
      = .error (.Skip "Guix Pull Failed, Skipping") ∧
    (⟨[("guix", "/usr/bin/guix")], [], [], [],
        [(("/usr/bin/guix", ["pull"]), .exited (some 1) "")], []⟩ : Env).binPath.lookup "guix"
      = some "/usr/bin/guix" := by
  constructor <;> rfl

/-- C2 amended: `run_guix` returns a Skip either because its requirement
probe reported Missing, or — converting an executed process's failure
into a Skip — exactly when the directly spawned `guix pull` probe does
not succeed. -/
theorem C2_amended_guix_skip_sources (env : Env) (ctx : ExecutionContext) :
    (env.binPath.lookup "guix" = none →
      (run_guix env ctx).1 = .error (.Skip ("\"" ++ "guix" ++ "\"" ++ " not found"))) ∧
    (∀ p, env.binPath.lookup "guix" = some p →
      ((run_guix env ctx).1 = .error (.Skip "Guix Pull Failed, Skipping") ↔
        isOk (command_check_output env ⟨p, ["pull"]⟩).1 = false)) := by
  constructor
  · intro h
    unfold run_guix require
    rw [h]
    rfl
  · intro p hp
    simp only [run_guix, require, hp, stepBind_stepOk, stepBind_stepEmit]
    cases hok : isOk (command_check_output env ⟨p, ["pull"]⟩).1 with
    | false => simp [hok, prependEvents, stepErr]
    | true =>
      simp only [hok, if_true, prependEvents_fst]
      exact iff_of_false (check_run_no_skip _ _ _ _) (by simp)

/-- Witness for C2's amended claim: the Missing branch on an empty
environment, and both directions of the pull-failure equivalence. -/
theorem C2_witness :
    (run_guix ⟨[], [], [], [], [], []⟩ ⟨.Wet, none, ⟨false, false, false, false⟩⟩).1
        = .error (.Skip ("\"" ++ "guix" ++ "\"" ++ " not found")) ∧
    ((run_guix ⟨[("guix", "/usr/bin/guix")], [], [], [],
          [(("/usr/bin/guix", ["pull"]), .exited (some 1) "")], []⟩
        ⟨.Wet, none, ⟨false, false, false, false⟩⟩).1
      = .error (.Skip "Guix Pull Failed, Skipping") ↔
      isOk (command_check_output ⟨[("guix", "/usr/bin/guix")], [], [], [],
          [(("/usr/bin/guix", ["pull"]), .exited (some 1) "")], []⟩
        ⟨"/usr/bin/guix", ["pull"]⟩).1 = false) :=
  ⟨(C2_amended_guix_skip_sources _ ⟨.Wet, none, ⟨false, false, false, false⟩⟩).1 rfl,
   (C2_amended_guix_skip_sources _ _).2 "/usr/bin/guix" rfl⟩

/-- C1 as stated is false: with `guix` on the search path and the
context's Run Mode set to Simulate, `run_guix` still spawns a real
process — the directly invoked `guix pull` probe. -/
theorem C1_counterexample :
    spawns (run_guix ⟨[("guix", "/usr/bin/guix")], [], [], [], [], []⟩
        ⟨.Dry, none, ⟨false, false, false, false⟩⟩).2
      = [.spawn "/usr/bin/guix" ["pull"]] ∧
    (⟨.Dry, none, ⟨false, false, false, false⟩⟩ : ExecutionContext).run_type = .Dry := by
  constructor <;> rfl

/-- C1 amended: every sub-command routed through the Run-Mode Executor is
gated by Run Mode — with Simulate no process is spawned and only a
preview reaches the reporting sink (`check_run`, `check_output`,
`spawn`).  However `run_guix`, `run_nix` and `upgrade_gnome_extensions`
issue their probe through a direct process invocation and
`run_brew_cask` issues its cask-upgrade repository query with Run Mode
forced to Execute, so each of these spawns exactly that one probe
process even when the context's Run Mode is Simulate. -/
theorem C1_amended_simulate_gating (env : Env) (ctx : ExecutionContext)
    (hrt : ctx.run_type = .Dry) :
    (∀ c : Cmd, check_run env .Dry c = (.ok (), [.preview c.program c.args])) ∧
    (∀ c : Cmd, exec_check_output env .Dry c = (.ok "", [.preview c.program c.args])) ∧
    (∀ c : Cmd, exec_spawn_wait env .Dry c = (.ok .Dry, [.preview c.program c.args])) ∧
    (∀ p, env.binPath.lookup "guix" = some p →
      spawns (run_guix env ctx).2 = [.spawn p ["pull"]]) ∧
    (∀ n nc ne, env.binPath.lookup "nix" = some n →
      env.binPath.lookup "nix-channel" = some nc →
      env.binPath.lookup "nix-env" = some ne → ∀ (os : OS) (nixos : Bool),
      spawns (run_nix env ctx os nixos).2 = [.spawn ne ["--query", "nix"]]) ∧
    (∀ g d, env.binPath.lookup "gdbus" = some g →
      envVar env "XDG_CURRENT_DESKTOP" = some d → rustContains d "GNOME" = true →
      spawns (upgrade_gnome_extensions env ctx).2 = [.spawn "gdbus" gdbusListArgs]) ∧
    (∀ (v : BrewVariant) (arch : Arch) (bn : String),
      env.binPath.lookup (BrewVariant.binary_name v) = some bn →
      (v.is_path && !(BrewVariant.is_macos_custom bn)) = false →
      spawns (run_brew_cask env ctx v arch).2
        = [.spawn ((v.execute arch).addArgs ["--repository", "buo/cask-upgrade"]).program
                  ((v.execute arch).addArgs ["--repository", "buo/cask-upgrade"]).args]) := by
  refine ⟨fun c => rfl, fun c => rfl, fun c => rfl, ?_, ?_, ?_, ?_⟩
  · exact fun p hp => run_guix_dry_spawns env ctx p hrt hp
  · exact fun n nc ne h1 h2 h3 os nixos =>
      run_nix_dry_spawns env ctx os nixos n nc ne hrt h1 h2 h3
  · exact fun g d hg hd hds => gnome_dry_spawns env ctx g d hrt hg hd hds
  · exact fun v arch bn hb hguard => cask_dry_spawns env ctx v arch bn hrt hb hguard

/-- Witness for C1's amended claim at a concrete Simulate-mode context
with all probed binaries present. -/
theorem C1_witness :
    check_run ⟨[("guix", "/g"), ("nix", "/n"), ("nix-channel", "/nc"), ("nix-env", "/ne"),
        ("gdbus", "/gd"), ("brew", "/b")], [], [("XDG_CURRENT_DESKTOP", "GNOME")], [], [], []⟩
      .Dry ⟨"x", ["y"]⟩ = (.ok (), [.preview "x" ["y"]]) ∧
    spawns (run_guix ⟨[("guix", "/g"), ("nix", "/n"), ("nix-channel", "/nc"),
        ("nix-env", "/ne"), ("gdbus", "/gd"), ("brew", "/b")], [],
        [("XDG_CURRENT_DESKTOP", "GNOME")], [], [], []⟩
      ⟨.Dry, none, ⟨false, false, false, false⟩⟩).2 = [.spawn "/g" ["pull"]] ∧
    spawns (run_nix ⟨[("guix", "/g"), ("nix", "/n"), ("nix-channel", "/nc"),
        ("nix-env", "/ne"), ("gdbus", "/gd"), ("brew", "/b")], [],
        [("XDG_CURRENT_DESKTOP", "GNOME")], [], [], []⟩
      ⟨.Dry, none, ⟨false, false, false, false⟩⟩ .linux false).2
      = [.spawn "/ne" ["--query", "nix"]] ∧
    spawns (upgrade_gnome_extensions ⟨[("guix", "/g"), ("nix", "/n"), ("nix-channel", "/nc"),
        ("nix-env", "/ne"), ("gdbus", "/gd"), ("brew", "/b")], [],
        [("XDG_CURRENT_DESKTOP", "GNOME")], [], [], []⟩
      ⟨.Dry, none, ⟨false, false, false, false⟩⟩).2 = [.spawn "gdbus" gdbusListArgs] ∧
    spawns (run_brew_cask ⟨[("guix", "/g"), ("nix", "/n"), ("nix-channel", "/nc"),
        ("nix-env", "/ne"), ("gdbus", "/gd"), ("brew", "/b")], [],
        [("XDG_CURRENT_DESKTOP", "GNOME")], [], [], []⟩
      ⟨.Dry, none, ⟨false, false, false, false⟩⟩ .Path .x86_64).2
      = [.spawn ((BrewVariant.Path.execute .x86_64).addArgs
            ["--repository", "buo/cask-upgrade"]).program
          ((BrewVariant.Path.execute .x86_64).addArgs
            ["--repository", "buo/cask-upgrade"]).args] := by
  have hall := C1_amended_simulate_gating
    ⟨[("guix", "/g"), ("nix", "/n"), ("nix-channel", "/nc"), ("nix-env", "/ne"),
      ("gdbus", "/gd"), ("brew", "/b")], [], [("XDG_CURRENT_DESKTOP", "GNOME")], [], [], []⟩
    ⟨.Dry, none, ⟨false, false, false, false⟩⟩ rfl
  refine ⟨?_, ?_, ?_, ?_, ?_⟩
  · exact hall.1 ⟨"x", ["y"]⟩
  · exact hall.2.2.2.1 "/g" rfl
  · exact hall.2.2.2.2.1 "/n" "/nc" "/ne" rfl rfl rfl .linux false
  · exact hall.2.2.2.2.2.1 "/gd" "GNOME" rfl rfl (by decide)
  · exact hall.2.2.2.2.2.2 .Path .x86_64 "/b" rfl (by decide)

/-- C7: brew variant resolution and labeling are deterministic and
side-effect-free — for a fixed filesystem snapshot, `step_title` and the
underlying existence check depend only on the snapshot's file-existence
facts (so evaluating twice yields the same label), and the variant's
command construction `BrewVariant.execute` is a pure function of variant
and architecture producing the same description on every evaluation and
emitting no event at all. -/
theorem C7_variant_determinism (e1 e2 : Env) (v : BrewVariant) (arch : Arch)
    (h : e1.filesExist = e2.filesExist) :
    BrewVariant.step_title v e1 = BrewVariant.step_title v e2 ∧
    BrewVariant.step_title v e1 = BrewVariant.step_title v e1 ∧
    BrewVariant.execute v arch = BrewVariant.execute v arch ∧
    BrewVariant.both_both_exist e1 = BrewVariant.both_both_exist e2 := by
  have hb : BrewVariant.both_both_exist e1 = BrewVariant.both_both_exist e2 := by
    unfold BrewVariant.both_both_exist
    rw [h]
  refine ⟨?_, rfl, rfl, hb⟩
  unfold BrewVariant.step_title
  rw [hb]

/-- Witness for C7: two snapshots differing in search-path content but
agreeing on file existence give the same label. -/
theorem C7_witness :
    (⟨[("brew", "/b")], [INTEL_BREW], [], [], [], []⟩ : Env).filesExist
        = (⟨[], [INTEL_BREW], [], [], [], []⟩ : Env).filesExist ∧
    BrewVariant.step_title .MacArm ⟨[("brew", "/b")], [INTEL_BREW], [], [], [], []⟩
        = BrewVariant.step_title .MacArm ⟨[], [INTEL_BREW], [], [], [], []⟩ :=
  ⟨rfl, (C7_variant_determinism ⟨[("brew", "/b")], [INTEL_BREW], [], [], [], []⟩
      ⟨[], [INTEL_BREW], [], [], [], []⟩ .MacArm .x86_64 rfl).1⟩

/-- The fixed sub-command order of `run_brew_formula`: `update`, then
`upgrade --ignore-pinned --formula`, then `cleanup` when the cleanup
flag is set, then `autoremove` when the brew_autoremove flag is set. -/
def brewFormulaSubcommands (cfg : Config) (v : BrewVariant) (arch : Arch) : List Cmd :=
  [(v.execute arch).addArgs ["update"],
   (v.execute arch).addArgs ["upgrade", "--ignore-pinned", "--formula"]]
  ++ (if cfg.cleanup then [(v.execute arch).addArgs ["cleanup"]] else [])
  ++ (if cfg.brew_autoremove then [(v.execute arch).addArgs ["autoremove"]] else [])

theorem run_brew_formula_eq (env : Env) (ctx : ExecutionContext) (variant : BrewVariant)
    (arch : Arch) (macos : Bool) (bn : String)
    (h : env.binPath.lookup variant.binary_name = some bn)
    (hg : (macos && (variant.is_path && !(BrewVariant.is_macos_custom bn))) = false) :
    run_brew_formula env ctx variant arch macos
      = prependEvents [.separator (variant.step_title env)]
          (runSeq env ctx.run_type (brewFormulaSubcommands ctx.config variant arch)) := by
  simp only [run_brew_formula, require, h, stepBind_stepOk, hg, Bool.false_eq_true,
    if_false, stepBind_stepEmit]
  rcases hcl : ctx.config.cleanup <;> rcases har : ctx.config.brew_autoremove <;>
    simp only [brewFormulaSubcommands, hcl, har, if_true, if_false, Bool.false_eq_true,
      List.append_nil, List.nil_append, List.cons_append, runSeq, stepBind_stepOk]

/-- C6: `run_brew_formula` issues its sub-commands in the fixed order
update, upgrade, (cleanup), (autoremove): the issued command list is
always an order-preserving front segment of that fixed list, it equals
the whole list when the step succeeds, and when the step fails the
issued list ends exactly at the failing sub-command — every earlier
sub-command succeeded and stays issued (no rollback), and none of the
later sub-commands is issued. -/
theorem C6_brew_formula_order (env : Env) (ctx : ExecutionContext) (variant : BrewVariant)
    (arch : Arch) (macos : Bool) (bn : String)
    (h : env.binPath.lookup variant.binary_name = some bn)
    (hg : (macos && (variant.is_path && !(BrewVariant.is_macos_custom bn))) = false) :
    (∃ t, issuedCmds (run_brew_formula env ctx variant arch macos).2 ++ t
        = brewFormulaSubcommands ctx.config variant arch) ∧
    ((run_brew_formula env ctx variant arch macos).1 = .ok () →
      issuedCmds (run_brew_formula env ctx variant arch macos).2
        = brewFormulaSubcommands ctx.config variant arch) ∧
    (∀ e : StepError, (run_brew_formula env ctx variant arch macos).1 = .error e →
      ∃ pre c post,
        brewFormulaSubcommands ctx.config variant arch = pre ++ c :: post ∧
        issuedCmds (run_brew_formula env ctx variant arch macos).2 = pre ++ [c] ∧
        (check_run env ctx.run_type c).1 = .error e ∧
        ∀ c2 ∈ pre, (check_run env ctx.run_type c2).1 = .ok ()) := by
  rw [run_brew_formula_eq env ctx variant arch macos bn h hg]
  simp only [prependEvents_snd, prependEvents_fst, List.singleton_append, issuedCmds_sep_cons]
  exact ⟨runSeq_issued_sub env ctx.run_type _, runSeq_ok_issued env ctx.run_type _,
    fun e he => runSeq_error_issued env ctx.run_type _ e he⟩

/-- Witness for C6: with every sub-command succeeding and both optional
flags set, exactly the four sub-commands are issued in order; with the
`upgrade` sub-command failing, the issued list ends at the failing
command with all earlier ones succeeded and no later one issued. -/
theorem C6_witness :
    (⟨[("brew", "/b")], [], [], [], [], []⟩ : Env).binPath.lookup
        (BrewVariant.binary_name .Path) = some "/b" ∧
    issuedCmds (run_brew_formula ⟨[("brew", "/b")], [], [], [], [], []⟩
        ⟨.Wet, none, ⟨true, true, false, false⟩⟩ .Path .x86_64 false).2
      = brewFormulaSubcommands ⟨true, true, false, false⟩ .Path .x86_64 ∧
    (run_brew_formula ⟨[("brew", "/b")], [], [], [],
        [(("brew", ["upgrade", "--ignore-pinned", "--formula"]), .exited (some 1) "")], []⟩
        ⟨.Wet, none, ⟨true, true, false, false⟩⟩ .Path .x86_64 false).1
      = .error (.ProcessFailed (some 1)) ∧
    (∃ pre c post,
      brewFormulaSubcommands ⟨true, true, false, false⟩ .Path .x86_64 = pre ++ c :: post ∧
      issuedCmds (run_brew_formula ⟨[("brew", "/b")], [], [], [],
          [(("brew", ["upgrade", "--ignore-pinned", "--formula"]), .exited (some 1) "")], []⟩
          ⟨.Wet, none, ⟨true, true, false, false⟩⟩ .Path .x86_64 false).2 = pre ++ [c] ∧
      (check_run ⟨[("brew", "/b")], [], [], [],
          [(("brew", ["upgrade", "--ignore-pinned", "--formula"]), .exited (some 1) "")], []⟩
        .Wet c).1 = .error (.ProcessFailed (some 1)) ∧
      ∀ c2 ∈ pre, (check_run ⟨[("brew", "/b")], [], [], [],
          [(("brew", ["upgrade", "--ignore-pinned", "--formula"]), .exited (some 1) "")], []⟩
        .Wet c2).1 = .ok ()) :=
  ⟨rfl, (C6_brew_formula_order ⟨[("brew", "/b")], [], [], [], [], []⟩
      ⟨.Wet, none, ⟨true, true, false, false⟩⟩ .Path .x86_64 false "/b" rfl rfl).2.1 rfl,
   rfl,
   (C6_brew_formula_order ⟨[("brew", "/b")], [], [], [],
        [(("brew", ["upgrade", "--ignore-pinned", "--formula"]), .exited (some 1) "")], []⟩
      ⟨.Wet, none, ⟨true, true, false, false⟩⟩ .Path .x86_64 false "/b" rfl rfl).2.2
    (.ProcessFailed (some 1)) rfl⟩

theorem string_append_ne (s : String) {b1 b2 : String} (h : b1 ≠ b2) :
    s ++ b1 ≠ s ++ b2 := by
  intro he
  apply h
  have hd := congrArg String.data he
  rw [String.data_append, String.data_append] at hd
  exact String.ext (List.append_cancel_left hd)

/-- The `bash -c "source <init> && sdk selfupdate"` command of
`run_sdkman`. -/
def sdkSelfupdateCmd (bash init : String) : Cmd :=
  ⟨bash, ["-c", "source " ++ init ++ " && sdk selfupdate"]⟩

/-- The `bash -c "source <init> && sdk update"` command of `run_sdkman`. -/
def sdkUpdateCmd (bash init : String) : Cmd :=
  ⟨bash, ["-c", "source " ++ init ++ " && sdk update"]⟩

/-- The `bash -c "source <init> && sdk upgrade"` command of
`run_sdkman`. -/
def sdkUpgradeCmd (bash init : String) : Cmd :=
  ⟨bash, ["-c", "source " ++ init ++ " && sdk upgrade"]⟩

/-- The `bash -c "source <init> && sdk flush archives"` command of
`run_sdkman`. -/
def sdkFlushArchivesCmd (bash init : String) : Cmd :=
  ⟨bash, ["-c", "source " ++ init ++ " && sdk flush archives"]⟩

/-- The `bash -c "source <init> && sdk flush temp"` command of
`run_sdkman`. -/
def sdkFlushTempCmd (bash init : String) : Cmd :=
  ⟨bash, ["-c", "source " ++ init ++ " && sdk flush temp"]⟩

/-- The commands `run_sdkman` hands to the Executor, in order, as a
function of the selfupdate setting value and the cleanup flag. -/
def sdkmanCmds (bash init v : String) (cleanup : Bool) : List Cmd :=
  (if v = "true" then [sdkSelfupdateCmd bash init] else [])
  ++ [sdkUpdateCmd bash init, sdkUpgradeCmd bash init]
  ++ (if cleanup then [sdkFlushArchivesCmd bash init, sdkFlushTempCmd bash init] else [])

theorem sdk_tail_cmd_ne (b i sub1 sub2 : String) (h : sub1 ≠ sub2) :
    (Cmd.mk b ["-c", "source " ++ i ++ sub1]) ≠ Cmd.mk b ["-c", "source " ++ i ++ sub2] := by
  intro he
  apply string_append_ne ("source " ++ i) h
  have harg := congrArg Cmd.args he
  simp only [List.cons.injEq, and_true] at harg
  exact harg.2

theorem sdkSelfupdateCmd_notin_tail (b i : String) (cleanup : Bool) :
    sdkSelfupdateCmd b i ∉ ([sdkUpdateCmd b i, sdkUpgradeCmd b i] ++
      (if cleanup then [sdkFlushArchivesCmd b i, sdkFlushTempCmd b i] else [])) := by
  intro hmem
  rcases List.mem_append.1 hmem with hm | hm
  · rcases List.mem_cons.1 hm with he | hm2
    · exact sdk_tail_cmd_ne b i " && sdk selfupdate" " && sdk update" (by decide) he
    · rcases List.mem_cons.1 hm2 with he | hm3
      · exact sdk_tail_cmd_ne b i " && sdk selfupdate" " && sdk upgrade" (by decide) he
      · simp at hm3
  · rcases hcl : cleanup with _ | _
    · rw [hcl] at hm
      simp at hm
    · rw [hcl] at hm
      simp only [if_true] at hm
      rcases List.mem_cons.1 hm with he | hm2
      · exact sdk_tail_cmd_ne b i " && sdk selfupdate" " && sdk flush archives" (by decide) he
      · rcases List.mem_cons.1 hm2 with he | hm3
        · exact sdk_tail_cmd_ne b i " && sdk selfupdate" " && sdk flush temp" (by decide) he
        · simp at hm3

theorem stepBind_pure_unit (r : StepRes Unit) : stepBind r (fun _ => stepOk ()) = r := by
  rcases r with ⟨o, es⟩
  cases o with
  | ok a =>
    cases a
    simp [stepBind, stepOk]
  | error e => rfl
  | panic m => rfl

theorem run_sdkman_eq (env : Env) (home_dir : String) (cleanup : Bool) (rt : RunType)
    (bash sdir : String) (kvs : List (String × String))
    (hb : env.binPath.lookup "bash" = some bash)
    (hs : (envVar env "SDKMAN_DIR").getD (joinPath home_dir ".sdkman") = sdir)
    (h2 : env.filesExist.contains (joinPath (joinPath sdir "bin") "sdkman-init.sh") = true)
    (h3 : env.filesExist.contains (joinPath (joinPath sdir "etc") "config") = true)
    (h4 : env.iniFiles.lookup (joinPath (joinPath sdir "etc") "config") = some kvs) :
    run_sdkman env home_dir cleanup rt
      = prependEvents [.separator "SDKMAN!"]
          (runSeq env rt (sdkmanCmds bash (joinPath (joinPath sdir "bin") "sdkman-init.sh")
            ((kvs.lookup "sdkman_selfupdate_feature").getD "false") cleanup)) := by
  simp only [run_sdkman, require, hb, stepBind_stepOk, hs, require_path, h2, if_true,
    stepBind_stepEmit, h3, iniLoad, h4]
  by_cases hv : (kvs.lookup "sdkman_selfupdate_feature").getD "false" = "true" <;>
    rcases hcl : cleanup with _ | _ <;>
      simp only [sdkmanCmds, hv, hcl, if_true, if_false, Bool.false_eq_true,
        List.append_nil, List.nil_append, List.cons_append, List.singleton_append, runSeq,
        stepBind_stepOk, stepBind_pure_unit, sdkSelfupdateCmd, sdkUpdateCmd, sdkUpgradeCmd,
        sdkFlushArchivesCmd, sdkFlushTempCmd]

/-- C8: `run_sdkman` reads the single boolean-valued
`sdkman_selfupdate_feature` setting from the SDKMAN INI config (an
absent key counting as "false") and issues `sdk selfupdate` if and only
if the value equals "true"; `sdk update` and `sdk upgrade` are issued
for either setting value whenever the step completes. -/
theorem C8_sdkman_selfupdate_setting (env : Env) (home_dir : String) (cleanup : Bool)
    (rt : RunType) (bash sdir : String) (kvs : List (String × String))
    (hb : env.binPath.lookup "bash" = some bash)
    (hs : (envVar env "SDKMAN_DIR").getD (joinPath home_dir ".sdkman") = sdir)
    (h2 : env.filesExist.contains (joinPath (joinPath sdir "bin") "sdkman-init.sh") = true)
    (h3 : env.filesExist.contains (joinPath (joinPath sdir "etc") "config") = true)
    (h4 : env.iniFiles.lookup (joinPath (joinPath sdir "etc") "config") = some kvs) :
    ((kvs.lookup "sdkman_selfupdate_feature").getD "false" = "true" →
      sdkSelfupdateCmd bash (joinPath (joinPath sdir "bin") "sdkman-init.sh")
        ∈ issuedCmds (run_sdkman env home_dir cleanup rt).2) ∧
    (¬ (kvs.lookup "sdkman_selfupdate_feature").getD "false" = "true" →
      sdkSelfupdateCmd bash (joinPath (joinPath sdir "bin") "sdkman-init.sh")
        ∉ issuedCmds (run_sdkman env home_dir cleanup rt).2) ∧
    ((run_sdkman env home_dir cleanup rt).1 = .ok () →
      sdkUpdateCmd bash (joinPath (joinPath sdir "bin") "sdkman-init.sh")
        ∈ issuedCmds (run_sdkman env home_dir cleanup rt).2 ∧
      sdkUpgradeCmd bash (joinPath (joinPath sdir "bin") "sdkman-init.sh")
        ∈ issuedCmds (run_sdkman env home_dir cleanup rt).2) := by
  rw [run_sdkman_eq env home_dir cleanup rt bash sdir kvs hb hs h2 h3 h4]
  simp only [prependEvents_snd, prependEvents_fst, List.singleton_append, issuedCmds_sep_cons]
  refine ⟨?_, ?_, ?_⟩
  · intro hv
    have hlist : sdkmanCmds bash (joinPath (joinPath sdir "bin") "sdkman-init.sh")
        ((kvs.lookup "sdkman_selfupdate_feature").getD "false") cleanup
        = sdkSelfupdateCmd bash (joinPath (joinPath sdir "bin") "sdkman-init.sh")
          :: ([sdkUpdateCmd bash (joinPath (joinPath sdir "bin") "sdkman-init.sh"),
               sdkUpgradeCmd bash (joinPath (joinPath sdir "bin") "sdkman-init.sh")] ++
              (if cleanup then
                [sdkFlushArchivesCmd bash (joinPath (joinPath sdir "bin") "sdkman-init.sh"),
                 sdkFlushTempCmd bash (joinPath (joinPath sdir "bin") "sdkman-init.sh")]
              else [])) := by
      simp [sdkmanCmds, hv]
    rw [hlist]
    obtain ⟨t, ht⟩ := runSeq_head_issued env rt
      (sdkSelfupdateCmd bash (joinPath (joinPath sdir "bin") "sdkman-init.sh")) _
    rw [ht]
    exact List.mem_cons_self _ _
  · intro hv hmem
    have hin := runSeq_issued_mem env rt _ _ hmem
    have hlist : sdkmanCmds bash (joinPath (joinPath sdir "bin") "sdkman-init.sh")
        ((kvs.lookup "sdkman_selfupdate_feature").getD "false") cleanup
        = [sdkUpdateCmd bash (joinPath (joinPath sdir "bin") "sdkman-init.sh"),
           sdkUpgradeCmd bash (joinPath (joinPath sdir "bin") "sdkman-init.sh")] ++
          (if cleanup then
            [sdkFlushArchivesCmd bash (joinPath (joinPath sdir "bin") "sdkman-init.sh"),
             sdkFlushTempCmd bash (joinPath (joinPath sdir "bin") "sdkman-init.sh")]
          else []) := by
      simp [sdkmanCmds, hv]
    rw [hlist] at hin
    exact sdkSelfupdateCmd_notin_tail _ _ cleanup hin
  · intro hok
    rw [runSeq_ok_issued env rt _ hok]
    constructor <;> simp [sdkmanCmds]

/-- Witness for C8: with the setting present and "true" the selfupdate
command is issued; with the key absent it is not; update and upgrade are
issued on a completed run. -/
theorem C8_witness :
    sdkSelfupdateCmd "/bin/bash" "/h/.sdkman/bin/sdkman-init.sh"
      ∈ issuedCmds (run_sdkman ⟨[("bash", "/bin/bash")],
          ["/h/.sdkman/bin/sdkman-init.sh", "/h/.sdkman/etc/config"], [],
          [("/h/.sdkman/etc/config", [("sdkman_selfupdate_feature", "true")])], [], []⟩
        "/h" false .Dry).2 ∧
    sdkSelfupdateCmd "/bin/bash" "/h/.sdkman/bin/sdkman-init.sh"
      ∉ issuedCmds (run_sdkman ⟨[("bash", "/bin/bash")],
          ["/h/.sdkman/bin/sdkman-init.sh", "/h/.sdkman/etc/config"], [],
          [("/h/.sdkman/etc/config", [])], [], []⟩ "/h" false .Dry).2 ∧
    sdkUpdateCmd "/bin/bash" "/h/.sdkman/bin/sdkman-init.sh"
      ∈ issuedCmds (run_sdkman ⟨[("bash", "/bin/bash")],
          ["/h/.sdkman/bin/sdkman-init.sh", "/h/.sdkman/etc/config"], [],
          [("/h/.sdkman/etc/config", [("sdkman_selfupdate_feature", "true")])], [], []⟩
        "/h" false .Dry).2 := by
  refine ⟨?_, ?_, ?_⟩
  · exact (C8_sdkman_selfupdate_setting ⟨[("bash", "/bin/bash")],
        ["/h/.sdkman/bin/sdkman-init.sh", "/h/.sdkman/etc/config"], [],
        [("/h/.sdkman/etc/config", [("sdkman_selfupdate_feature", "true")])], [], []⟩
      "/h" false .Dry "/bin/bash" "/h/.sdkman" [("sdkman_selfupdate_feature", "true")]
      rfl rfl rfl rfl rfl).1 rfl
  · exact (C8_sdkman_selfupdate_setting ⟨[("bash", "/bin/bash")],
        ["/h/.sdkman/bin/sdkman-init.sh", "/h/.sdkman/etc/config"], [],
        [("/h/.sdkman/etc/config", [])], [], []⟩
      "/h" false .Dry "/bin/bash" "/h/.sdkman" []
      rfl rfl rfl rfl rfl).2.1 (by decide)
  · exact ((C8_sdkman_selfupdate_setting ⟨[("bash", "/bin/bash")],
        ["/h/.sdkman/bin/sdkman-init.sh", "/h/.sdkman/etc/config"], [],
        [("/h/.sdkman/etc/config", [("sdkman_selfupdate_feature", "true")])], [], []⟩
      "/h" false .Dry "/bin/bash" "/h/.sdkman" [("sdkman_selfupdate_feature", "true")]
      rfl rfl rfl rfl rfl).2.2 (by rfl)).1

end Topgrade
